import Mathlib

/-!
# Verification of the cloudmetrics-pipeline engine

Shallow embedding of the core pipeline engine of `cloudmetrics_pipeline`
(`process.py`, `scene_extraction.py`, `steps/tile.py`, `masks.py`), together
with theorems settling the specification claims about it.

Conventions of the embedding:
* Python scalar parameter values are `PValue` (string / int / None); `str(v)`
  is `PValue.pyStr`.
* Filesystem paths are `PathM`: a directory component list plus a base name,
  mirroring `pathlib.Path.parent` / `.name`.
* Python dicts that matter here are insertion-ordered association lists
  (CPython dicts preserve insertion order, and the code serialises them in
  that order).
* Fallible code is modelled with `Except String`.
-/

namespace CloudmetricsPipeline

/-- A Python scalar value as it appears in a step's `parameters` mapping. -/
inductive PValue where
  | str (s : String)
  | int (n : Int)
  | pyNone
  deriving DecidableEq, Repr

/-- Python `str(v)` for the scalar values above (used by f-strings in
`PipelineStep.identifier`). -/
def PValue.pyStr : PValue → String
  | .str s => s
  | .int n => toString n
  | .pyNone => "None"

/-- Look a key up in an insertion-ordered parameter mapping
(`params[k]` / `k in params`). -/
def lookupParam (k : String) (ps : List (String × PValue)) : Option PValue :=
  (ps.find? (fun kv => kv.1 == k)).map (·.2)

/-- Remove a key from an insertion-ordered parameter mapping
(`params.pop(k)`; keys are unique, so filtering is removal). -/
def removeParam (k : String) (ps : List (String × PValue)) : List (String × PValue) :=
  ps.filter (fun kv => kv.1 != k)

/-- Translated from `PipelineStep.identifier` (process.py, lines 90-104):
start with `[kind]`; if `kind` occurs as a key in `parameters`, pop it and
append its value; if parameters remain, append them serialised as
`key=value` joined by `__`; if a transform function is present, append its
`__name__`; join all parts with `__`.

The popped value is appended via its Python string form (in the source it is
always the metric-name string; a non-string there would make `str.join`
raise `TypeError`). -/
def identifierOf (kind : String) (parameters : List (String × PValue))
    (fnName : Option String) : String :=
  let startParts := [kind]
  let afterPop :=
    match lookupParam kind parameters with
    | Option.some v => (startParts ++ [v.pyStr], removeParam kind parameters)
    | Option.none => (startParts, parameters)
  let parts := afterPop.1
  let params := afterPop.2
  let parts :=
    if params.isEmpty then parts
    else
      parts ++ [String.intercalate "__"
        (params.map (fun kv => kv.1 ++ "=" ++ kv.2.pyStr))]
  let parts :=
    match fnName with
    | Option.some n => parts ++ [n]
    | Option.none => parts
  String.intercalate "__" parts

/-- A filesystem path split as `pathlib` observes it: `dir` is the component
list of `Path.parent`, `base` is `Path.name`. -/
structure PathM where
  dir : List String
  base : String
  deriving DecidableEq, Repr

/-- The full component list of a path. -/
def PathM.components (p : PathM) : List String := p.dir ++ [p.base]

/-- A `PipelineStep` luigi task (process.py, lines 77-171): one step applied
to one scene's current artifact.  `fn` is the transform function's
`__name__` (`Option.none` when the Python `fn` is `None`); `parentOutput`
is the path of the parent task's output artifact (`self.parent.output().fn`). -/
structure TaskNode where
  kind : String
  parentOutput : PathM
  fn : Option String
  parameters : List (String × PValue)
  debug : Bool
  deriving DecidableEq, Repr

/-- `PipelineStep.identifier` as a property of the task. -/
def TaskNode.identifier (t : TaskNode) : String :=
  identifierOf t.kind t.parameters t.fn

/-- Translated from `PipelineStep.output` (process.py, lines 167-171):
`filepath_parent.parent / self.identifier / filepath_parent.name`. -/
def TaskNode.output (t : TaskNode) : PathM :=
  { dir := t.parentOutput.dir ++ [t.identifier], base := t.parentOutput.base }

/-! ## Pipeline builder (process.py, lines 174-216) -/

/-- One step of the builder's chain, as stored by `_add_step`
(`dict(kind=..., fn=..., parameters=...)`).  The tile step records the three
keyword arguments of `CloudmetricPipeline.tile`; the metrics step records
the requested metric-name list. -/
inductive Step where
  | mask (fnName : String) (parameters : List (String × PValue))
  | tile (window_size : Nat) (window_stride : Option Nat) (window_offset : PValue)
  | metrics (metrics : List String)
  deriving DecidableEq, Repr

/-- The source files a pipeline starts from (`find_scenes` accepts a glob
pattern, a list of filenames or a single filename). -/
inductive SourceFiles where
  | glob (pattern : String)
  | paths (files : List String)
  | single (file : String)
  deriving DecidableEq, Repr

/-- `CloudmetricPipeline` (process.py, lines 174-183): the builder value,
holding the source-file spec and the ordered step sequence. -/
structure CloudmetricPipeline where
  source_files : SourceFiles
  steps : List Step
  deriving DecidableEq, Repr

/-- `CloudmetricPipeline._add_step`: returns a NEW pipeline whose steps are
`self._steps + [step]`; the receiver is not mutated. -/
def CloudmetricPipeline.addStep (p : CloudmetricPipeline) (step : Step) :
    CloudmetricPipeline :=
  { source_files := p.source_files, steps := p.steps ++ [step] }

/-- `CloudmetricPipeline.mask(fn, **kwargs)`. -/
def CloudmetricPipeline.mask (p : CloudmetricPipeline) (fnName : String)
    (kwargs : List (String × PValue)) : CloudmetricPipeline :=
  p.addStep (Step.mask fnName kwargs)

/-- `CloudmetricPipeline.tile(window_size, window_stride=None,
window_offset="stride_center")` (process.py, lines 193-201).  Note the
default of `window_offset` in the source is the string `"stride_center"`,
not `None`. -/
def CloudmetricPipeline.tile (p : CloudmetricPipeline) (window_size : Nat)
    (window_stride : Option Nat := Option.none)
    (window_offset : PValue := PValue.str "stride_center") : CloudmetricPipeline :=
  p.addStep (Step.tile window_size window_stride window_offset)

/-- The message of the `NotImplementedError` raised by `compute_metrics`
for unknown metric names (process.py, lines 211-214). -/
def missingMetricsMessage (missing available : List String) : String :=
  "The " ++ String.intercalate ", " missing
    ++ " metric isn't implemented, the available metrics are: "
    ++ String.intercalate ", " available

/-- `CloudmetricPipeline.compute_metrics(metrics)` (process.py, lines
203-216).  `available` stands for the module-level `AVAILABLE_METRICS`
registry (reflected from the external `cloudmetrics` package, so passed in
explicitly here).  Raises before any task is built or run when some
requested metric is unknown; otherwise appends the metrics step. -/
def CloudmetricPipeline.compute_metrics (available : List String)
    (p : CloudmetricPipeline) (metrics : List String) :
    Except String CloudmetricPipeline :=
  if (metrics.filter (fun m => !available.contains m)).isEmpty then
    Except.ok (p.addStep (Step.metrics metrics))
  else
    Except.error (missingMetricsMessage
      (metrics.filter (fun m => !available.contains m)) available)

/-! ## Tiling (steps/tile.py, lines 9-32) -/

/-- `window_stride = window_size if window_stride is None` (tile.py,
lines 15-16). -/
def resolveStride (window_size : Nat) (window_stride : Option Nat) : Nat :=
  window_stride.getD window_size

/-- The offset computation of `get_sliding_window_view_strided` (tile.py,
lines 18-26): `"stride_center"` needs `window_stride >= window_size` and
gives `(window_stride - window_size) // 2`; `None` gives `0`; any other
value is a `NotImplementedError`. -/
def computeWindowOffset (window_size : Nat) (window_stride : Option Nat)
    (window_offset : PValue) : Except String Nat :=
  let stride := resolveStride window_size window_stride
  if window_offset = PValue.str "stride_center" then
    if stride ≥ window_size then Except.ok ((stride - window_size) / 2)
    else Except.error "`stride_center` requires window_stride >= window_size"
  else if window_offset = PValue.pyNone then Except.ok 0
  else Except.error ("NotImplementedError: " ++ window_offset.pyStr)

/-- The window start positions along one axis of length `axisLen`:
`sliding_window_view` yields starts `0 .. axisLen - window_size`, and the
slice `[offset::stride]` keeps those `i ≥ offset` with
`(i - offset) % stride = 0` (tile.py, lines 30-32). -/
def windowStartPositions (axisLen window_size stride offset : Nat) : List Nat :=
  (List.range (axisLen + 1 - window_size)).filter
    (fun i => offset ≤ i && (i - offset) % stride == 0)

/-! ## Scene extraction (scene_extraction.py) -/

/-- A persisted artifact mapping `scene_id -> filepath`, insertion ordered
(a CPython dict). -/
abbrev SceneMap := List (String × PathM)

/-- `key in self` for the mapping. -/
def SceneMap.hasKey (d : SceneMap) (k : String) : Bool :=
  d.any (fun kv => kv.1 == k)

/-- `NoReplaceDict.__setitem__` (scene_extraction.py, lines 15-27): raises
`KeyExistsException` when the key already exists, otherwise inserts (at the
end, in CPython insertion order). -/
def noReplaceSetItem (d : SceneMap) (k : String) (v : PathM) :
    Except String SceneMap :=
  if d.hasKey k then Except.error ("KeyExistsException: " ++ k)
  else Except.ok (d ++ [(k, v)])

/-- CPython `dict.update` called on a `NoReplaceDict`
(scene_extraction.py, line 97): `dict.update` uses the base-class insertion
and does NOT call the overridden `__setitem__`, so an existing key is
silently overwritten in place and a new key is appended. -/
def dictUpdate (d : SceneMap) (other : SceneMap) : SceneMap :=
  other.foldl
    (fun acc kv =>
      if acc.hasKey kv.1 then
        acc.map (fun kv0 => if kv0.1 == kv.1 then (kv0.1, kv.2) else kv0)
      else acc ++ [kv])
    d

/-- The scene artifact path `filepath.parent / SCENE_PATH / (scene_id + ".nc")`
(`SCENE_PATH = "cloudmetrics"`). -/
def scenePathFor (dirOf : List String) (sceneId : String) : PathM :=
  { dir := dirOf ++ ["cloudmetrics"], base := sceneId ++ ".nc" }

/-- One source file handed to `make_scenes`, dispatched on its suffix
(scene_extraction.py, lines 92-99).  For a netCDF file, `sceneIds` is the
scene-identifier sequence `_individual_scenes_in_file` yields (from the
`scene_id` coordinate, or formatted times composed with the filename stem). -/
inductive SourceEntry where
  | image (dirOf : List String) (stem : String)
  | netcdf (dirOf : List String) (stem : String) (sceneIds : List String)
  | unknownSuffix (suffix : String)
  deriving DecidableEq, Repr

/-- `_make_netcdf_scenes` (scene_extraction.py, lines 47-78): registers each
scene of one file into a fresh `NoReplaceDict` via `__setitem__` (so a
duplicate within one file raises). -/
def makeNetcdfScenes (dirOf : List String) (sceneIds : List String) :
    Except String SceneMap :=
  sceneIds.foldlM
    (fun acc sid => noReplaceSetItem acc sid (scenePathFor dirOf sid)) []

/-- `make_scenes` (scene_extraction.py, lines 81-106): image scenes are
registered via `scenes[scene_id] = ...` (the guarded `__setitem__`), but a
netCDF file's scenes are merged in via `scenes.update(...)`, which bypasses
`NoReplaceDict.__setitem__`. -/
def makeScenes (sources : List SourceEntry) : Except String SceneMap :=
  sources.foldlM
    (fun scenes src =>
      match src with
      | SourceEntry.image dirOf stem =>
          noReplaceSetItem scenes stem (scenePathFor dirOf stem)
      | SourceEntry.netcdf dirOf _stem sceneIds => do
          let inner ← makeNetcdfScenes dirOf sceneIds
          pure (dictUpdate scenes inner)
      | SourceEntry.unknownSuffix suffix =>
          Except.error ("NotImplementedError: " ++ suffix))
    []

/-! ## Task-node execution: the metric input check and the mask dispatch
(process.py, lines 110-157) -/

/-- A loaded single-variable field (`xr.DataArray`): its name, whether its
dtype is boolean, and its values.  The code compares float values exactly
against `0.0` and `1.0`; values representable in the examples are exact, so
they are embedded as rationals. -/
structure DataArrayM where
  name : String
  isBool : Bool
  values : List ℚ
  deriving DecidableEq, Repr

/-- `da.min()` over the stored values (0 for the empty field, whose NaN
min/max also fails the equality test in the source). -/
def listMinQ : List ℚ → ℚ
  | [] => 0
  | x :: xs => xs.foldl min x

/-- `da.max()` over the stored values. -/
def listMaxQ : List ℚ → ℚ
  | [] => 0
  | x :: xs => xs.foldl max x

/-- Outcome of the metric-step input validation. -/
inductive MetricInputResult where
  | acceptedBool
  | acceptedCast
  | rangeError (fieldName : String) (vmin vmax : ℚ)
  deriving DecidableEq, Repr

/-- The validation message of process.py, lines 136-141, rendered from the
data the exception interpolates: the offending field name and its actual
minimum and maximum. -/
def rangeErrorMessage (fieldName : String) (vmin vmax : ℚ) : String :=
  "The field you're trying use as a mask appears to not only contain 0.0"
    ++ " and 1.0 values " ++ fieldName ++ "=[" ++ toString vmin ++ ":"
    ++ toString vmax ++ "] Maybe you forgot to apply a mask method?"

/-- The metric branch of `PipelineStep._run` for a single-variable field
(process.py, lines 128-144): a boolean-typed field is used directly; a
non-boolean field must have minimum exactly 0.0 and maximum exactly 1.0, in
which case it is cast to boolean; otherwise the validation exception is
raised, carrying the field name and its actual minimum and maximum. -/
def checkMetricInput (da : DataArrayM) : MetricInputResult :=
  if da.isBool then MetricInputResult.acceptedBool
  else
    let vmin := listMinQ da.values
    let vmax := listMaxQ da.values
    if vmin ≠ 0 ∨ vmax ≠ 1 then MetricInputResult.rangeError da.name vmin vmax
    else MetricInputResult.acceptedCast

/-- A loaded artifact as `XArrayTarget.open` returns it: a single named
field (`xr.DataArray`) or a multi-variable container (`xr.Dataset`). -/
inductive XrData where
  | dataArray (da : DataArrayM)
  | dataset (varNames : List String)
  deriving DecidableEq, Repr

/-- The `fn` parameter of a mask step: a callable (observed through its
`__name__`) or the unimplemented string shorthand. -/
inductive MaskFn where
  | callable (name : String)
  | shorthand (srepr : String)
  deriving DecidableEq, Repr

/-- The call `PipelineStep._run` makes to a mask transform: which keyword
the loaded artifact is bound to, the artifact, and the step parameters
passed as further keyword arguments. -/
structure MaskCall where
  kwargName : String
  argument : XrData
  parameters : List (String × PValue)
  deriving DecidableEq, Repr

/-- The mask branch of `PipelineStep._run` (process.py, lines 115-123): a
string `fn` raises `NotImplementedError` without being called; a callable
`fn` is invoked as `fn(da_scene=..., **parameters)` for a single field and
as `fn(ds_scene=..., **parameters)` for a multi-variable container.  The
result records the invocation made. -/
def runMaskDispatch (fn : MaskFn) (ds_or_da : XrData)
    (parameters : List (String × PValue)) : Except String MaskCall :=
  match fn with
  | MaskFn.shorthand s => Except.error ("NotImplementedError: " ++ s)
  | MaskFn.callable _ =>
    match ds_or_da with
    | XrData.dataArray da =>
        Except.ok { kwargName := "da_scene", argument := XrData.dataArray da,
                    parameters := parameters }
    | XrData.dataset vs =>
        Except.ok { kwargName := "ds_scene", argument := XrData.dataset vs,
                    parameters := parameters }

/-! ## Merger (process.py, lines 310-331) -/

/-- One final-step output as loaded by the merger: a named array, with
`payload` the per-scene data (opaque to the merge). -/
structure DA (V : Type) where
  name : String
  payload : V
  deriving DecidableEq, Repr

/-- A merged variable: one name, the payloads concatenated along the new
`scene_id` axis in input order. -/
structure MergedVarM (V : Type) where
  name : String
  concatenated : List V
  deriving DecidableEq, Repr

/-- The merged result: a single named array (unwrapped) or a multi-variable
dataset. -/
inductive MergeResultM (V : Type) where
  | singleVar (v : MergedVarM V)
  | multiVar (vars : List (MergedVarM V))
  deriving DecidableEq, Repr

/-- `das_by_name.setdefault(da.name, []).append(da)` (process.py, lines
313-315): groups are kept in first-occurrence order, arrays appended in
input order. -/
def addToGroups {V : Type} (groups : List (String × List V)) (da : DA V) :
    List (String × List V) :=
  if groups.any (fun g => g.1 == da.name) then
    groups.map (fun g => if g.1 == da.name then (g.1, g.2 ++ [da.payload]) else g)
  else groups ++ [(da.name, [da.payload])]

/-- The grouping loop of `_merge_outputs`. -/
def groupByName {V : Type} (das : List (DA V)) : List (String × List V) :=
  das.foldl addToGroups []

/-- `_merge_outputs` (process.py, lines 310-331).  For a non-empty output
list the truthy branch runs: group by name, concatenate each group along
the new `scene_id` axis, merge the groups into one dataset; a dataset with
exactly one data variable is returned unwrapped.  For an empty list the
falsy branch reaches `xr.concat([])`, which raises. -/
def mergeOutputs {V : Type} (das : List (DA V)) : Except String (MergeResultM V) :=
  if das.isEmpty then
    Except.error "ValueError: must supply at least one object to concatenate"
  else
    match (groupByName das).map (fun g => MergedVarM.mk g.1 g.2) with
    | [v] => Except.ok (MergeResultM.singleVar v)
    | vs => Except.ok (MergeResultM.multiVar vs)

/-- The distinct output names in first-occurrence order (a specification-side
description of the keys `groupByName` produces). -/
def firstOccurrenceNames {V : Type} (das : List (DA V)) : List String :=
  das.foldl (fun ns da => if da.name ∈ ns then ns else ns ++ [da.name]) []

/-- The payload list of the group of name `n`, as the merger should build it:
the payloads of the outputs carrying that name, in input order. -/
def groupPayloads {V : Type} (das : List (DA V)) (n : String) : List V :=
  (das.filter (fun da => da.name == n)).map (fun da => da.payload)

/-- Look up the group of name `n`. -/
def keyFind {V : Type} (groups : List (String × List V)) (n : String) :
    Option (List V) :=
  (groups.find? (fun g => g.1 == n)).map (fun g => g.2)

/-- A concrete pipeline value used to instantiate universally quantified
theorems. -/
def samplePipeline : CloudmetricPipeline :=
  { source_files := SourceFiles.glob "rico_*.nc",
    steps := [Step.mask "rgb_greyscale_mask" []] }

/-- **C1.** The task-node identifier is a pure function of
`(kind, parameters, transform name)`: for every two step descriptors with
equal kind, equal (insertion-ordered) parameters, and equal transform name,
the derived identifiers are equal — whatever their parent artifacts or debug
flags.  The derivation itself is `identifierOf`, translated line by line
from `PipelineStep.identifier`. -/
theorem identifier_pure_function (t1 t2 : TaskNode)
    (hk : t1.kind = t2.kind) (hp : t1.parameters = t2.parameters)
    (hf : t1.fn = t2.fn) : t1.identifier = t2.identifier := by
  unfold TaskNode.identifier
  rw [hk, hp, hf]

/-- Witness for C1: two concrete metric tasks that differ in parent artifact
and debug flag but share kind, parameters and transform name have the same
identifier. -/
theorem identifier_pure_function_witness :
    (({ kind := "metric", parentOutput := { dir := ["data", "cloudmetrics"], base := "scene0.nc" },
        fn := Option.none, parameters := [("metric", PValue.str "iorg")],
        debug := false } : TaskNode)).identifier
      =
    (({ kind := "metric", parentOutput := { dir := ["elsewhere"], base := "scene1.nc" },
        fn := Option.none, parameters := [("metric", PValue.str "iorg")],
        debug := true } : TaskNode)).identifier :=
  identifier_pure_function _ _ rfl rfl rfl

/-- **C2.** The output artifact path of a task node equals the parent
output's parent directory, then the node's identifier as a subdirectory,
then the parent output's base filename; consequently two task nodes with
identical `(parent, step)` have identical output paths (debug flags may
differ). -/
theorem output_path_spec (t1 t2 : TaskNode)
    (hparent : t1.parentOutput = t2.parentOutput)
    (hk : t1.kind = t2.kind) (hp : t1.parameters = t2.parameters)
    (hf : t1.fn = t2.fn) :
    t1.output.components
        = t1.parentOutput.dir ++ [t1.identifier] ++ [t1.parentOutput.base]
      ∧ t1.output = t2.output := by
  refine ⟨by simp [TaskNode.output, PathM.components], ?_⟩
  unfold TaskNode.output
  rw [hparent, identifier_pure_function t1 t2 hk hp hf]

/-- Witness for C2: two concrete tile tasks over the same parent artifact,
differing only in the debug flag, have the same output path, and that path
is parent-dir / identifier / parent-base. -/
theorem output_path_spec_witness :
    (({ kind := "tile", parentOutput := { dir := ["data", "cloudmetrics", "mask__rgb_greyscale_mask"], base := "scene0.nc" },
        fn := Option.none,
        parameters := [("window_size", PValue.int 128), ("window_stride", PValue.pyNone), ("window_offset", PValue.str "stride_center")],
        debug := false } : TaskNode)).output.components
        = ["data", "cloudmetrics", "mask__rgb_greyscale_mask"]
            ++ [identifierOf "tile" [("window_size", PValue.int 128), ("window_stride", PValue.pyNone), ("window_offset", PValue.str "stride_center")] Option.none]
            ++ ["scene0.nc"]
      ∧ (({ kind := "tile", parentOutput := { dir := ["data", "cloudmetrics", "mask__rgb_greyscale_mask"], base := "scene0.nc" },
            fn := Option.none,
            parameters := [("window_size", PValue.int 128), ("window_stride", PValue.pyNone), ("window_offset", PValue.str "stride_center")],
            debug := false } : TaskNode)).output
          = (({ kind := "tile", parentOutput := { dir := ["data", "cloudmetrics", "mask__rgb_greyscale_mask"], base := "scene0.nc" },
                fn := Option.none,
                parameters := [("window_size", PValue.int 128), ("window_stride", PValue.pyNone), ("window_offset", PValue.str "stride_center")],
                debug := true } : TaskNode)).output :=
  output_path_spec _ _ rfl rfl rfl rfl

/-- **C3** (the part the code performs as documented, and the part it does
not).  Registration through `NoReplaceDict.__setitem__` does raise
`KeyExistsException` for a duplicate scene ID — two image files with the
same stem abort extraction.  But a netCDF file whose scene IDs collide with
already-registered scenes is merged in through CPython `dict.update`, which
bypasses the overridden `__setitem__`: `make_scenes` then succeeds and the
earlier registration is silently overwritten (here scene `a`, first the
image scene from `imgs/`, afterwards the netCDF scene from `ncs/`). -/
theorem make_scenes_update_bypasses_noreplace :
    (makeScenes [SourceEntry.image ["imgs"] "a", SourceEntry.image ["imgs2"] "a"]
        = Except.error "KeyExistsException: a")
  ∧ (makeScenes [SourceEntry.image ["imgs"] "a", SourceEntry.netcdf ["ncs"] "b" ["a"]]
        = Except.ok [("a", scenePathFor ["ncs"] "a")]) := by
  constructor <;> rfl

/-- **C4.** The pipeline builder is immutable: `mask`, `tile` and
`compute_metrics` each return a new builder whose step sequence is the
original sequence with the new step appended and whose source-files spec is
the original one; a builder obtained by appending one step never contains a
step it was not built from, so two builders chained from the same prefix
never observe each other's later steps. -/
theorem builder_immutable (p : CloudmetricPipeline) (fnName : String)
    (kwargs : List (String × PValue)) (ws : Nat) (stride : Option Nat)
    (off : PValue) (available metrics : List String)
    (h : ∀ m ∈ metrics, m ∈ available) :
    ((p.mask fnName kwargs).source_files = p.source_files
      ∧ (p.mask fnName kwargs).steps = p.steps ++ [Step.mask fnName kwargs])
  ∧ ((p.tile ws stride off).source_files = p.source_files
      ∧ (p.tile ws stride off).steps = p.steps ++ [Step.tile ws stride off])
  ∧ (CloudmetricPipeline.compute_metrics available p metrics
      = Except.ok { source_files := p.source_files,
                    steps := p.steps ++ [Step.metrics metrics] })
  ∧ (∀ s1 s2 : Step, s2 ∉ p.steps → s1 ≠ s2 → s2 ∉ (p.addStep s1).steps) := by
  refine ⟨⟨rfl, rfl⟩, ⟨rfl, rfl⟩, ?_, ?_⟩
  · have hmiss : metrics.filter (fun m => !available.contains m) = [] := by
      rw [List.filter_eq_nil_iff]
      simpa using h
    unfold CloudmetricPipeline.compute_metrics
    rw [hmiss]
    rfl
  · intro s1 s2 hnot hne
    simp only [CloudmetricPipeline.addStep, List.mem_append, List.mem_singleton]
    rintro (hmem | hs)
    · exact hnot hmem
    · exact hne hs.symm

/-- Witness for C4: on a concrete pipeline with one mask step,
`compute_metrics` with a known metric returns a NEW builder value with the
metrics step appended to the old step list and the source spec kept. -/
theorem builder_immutable_witness :
    CloudmetricPipeline.compute_metrics ["fractal_dimension", "iorg"]
        samplePipeline ["iorg"]
      = Except.ok { source_files := samplePipeline.source_files,
                    steps := samplePipeline.steps ++ [Step.metrics ["iorg"]] } :=
  (builder_immutable samplePipeline "f" [] 4 Option.none PValue.pyNone
    ["fractal_dimension", "iorg"] ["iorg"] (by decide)).2.2.1

/-- **C5.** `compute_metrics` fails at builder-call time (it is a pure
builder operation, independent of scene extraction and execution) if and
only if some requested metric name is missing from the registry; the raised
message is built from exactly the unknown names (`metrics` filtered by
non-membership) and the full available registry; on success the builder
gets the metrics step appended. -/
theorem compute_metrics_unknown_check (available metrics : List String)
    (p : CloudmetricPipeline) :
    ((∃ m ∈ metrics, m ∉ available) →
      CloudmetricPipeline.compute_metrics available p metrics
        = Except.error (missingMetricsMessage
            (metrics.filter (fun m => !available.contains m)) available))
  ∧ ((∀ m ∈ metrics, m ∈ available) →
      CloudmetricPipeline.compute_metrics available p metrics
        = Except.ok (p.addStep (Step.metrics metrics)))
  ∧ (∀ m, m ∈ metrics.filter (fun m => !available.contains m)
        ↔ m ∈ metrics ∧ m ∉ available) := by
  refine ⟨?_, ?_, ?_⟩
  · rintro ⟨m, hm, hnot⟩
    have hmem : m ∈ metrics.filter (fun m => !available.contains m) := by
      rw [List.mem_filter]
      exact ⟨hm, by simpa using hnot⟩
    have hne : ¬((metrics.filter (fun m => !available.contains m)).isEmpty = true) := by
      cases hfe : metrics.filter (fun m => !available.contains m) with
      | nil => rw [hfe] at hmem; cases hmem
      | cons a l => simp [List.isEmpty]
    unfold CloudmetricPipeline.compute_metrics
    rw [if_neg hne]
  · intro h
    have hmiss : metrics.filter (fun m => !available.contains m) = [] := by
      rw [List.filter_eq_nil_iff]
      simpa using h
    unfold CloudmetricPipeline.compute_metrics
    rw [hmiss]
    rfl
  · intro m
    rw [List.mem_filter]
    simp

/-- Witness for C5: requesting `not_a_real_metric` against a two-metric
registry raises with a message listing the unknown name and the registry;
requesting only known metrics succeeds. -/
theorem compute_metrics_unknown_check_witness :
    (CloudmetricPipeline.compute_metrics ["fractal_dimension", "iorg"]
        samplePipeline ["not_a_real_metric"]
      = Except.error (missingMetricsMessage ["not_a_real_metric"]
          ["fractal_dimension", "iorg"]))
  ∧ (CloudmetricPipeline.compute_metrics ["fractal_dimension", "iorg"]
        samplePipeline ["iorg"]
      = Except.ok (samplePipeline.addStep (Step.metrics ["iorg"]))) :=
  ⟨(compute_metrics_unknown_check ["fractal_dimension", "iorg"]
        ["not_a_real_metric"] samplePipeline).1
      ⟨"not_a_real_metric", by decide, by decide⟩,
   (compute_metrics_unknown_check ["fractal_dimension", "iorg"] ["iorg"]
        samplePipeline).2.1 (by decide)⟩

/-- **C7.** For a tile step with `window_offset="stride_center"`: when
`window_stride >= window_size` the computed integer offset is
`(window_stride - window_size) // 2`, and when `window_stride < window_size`
the step fails with the configuration error. -/
theorem tile_stride_center_offset (window_size stride : Nat) :
    (window_size ≤ stride →
      computeWindowOffset window_size (Option.some stride)
          (PValue.str "stride_center")
        = Except.ok ((stride - window_size) / 2))
  ∧ (stride < window_size →
      computeWindowOffset window_size (Option.some stride)
          (PValue.str "stride_center")
        = Except.error "`stride_center` requires window_stride >= window_size") := by
  constructor <;> intro h
  · simp [computeWindowOffset, resolveStride, h]
  · simp [computeWindowOffset, resolveStride, Nat.not_le.mpr h]

/-- Witness for C7: `window_size=4, window_stride=8` gives offset `2`;
`window_size=8, window_stride=4` fails. -/
theorem tile_stride_center_offset_witness :
    computeWindowOffset 4 (Option.some 8) (PValue.str "stride_center")
        = Except.ok 2
  ∧ computeWindowOffset 8 (Option.some 4) (PValue.str "stride_center")
        = Except.error "`stride_center` requires window_stride >= window_size" :=
  ⟨(tile_stride_center_offset 4 8).1 (by decide),
   (tile_stride_center_offset 8 4).2 (by decide)⟩

/-- **C10.** The mask branch of `PipelineStep._run` binds the loaded parent
artifact to the keyword `da_scene` when it is a single named field and to
`ds_scene` when it is a multi-variable container, passing the step
parameters as further keyword arguments; a string transform raises
`NotImplementedError` and is never invoked. -/
theorem mask_dispatch_spec (da : DataArrayM) (vars : List String)
    (params : List (String × PValue)) (s : String) :
    (runMaskDispatch (MaskFn.callable s) (XrData.dataArray da) params
        = Except.ok { kwargName := "da_scene", argument := XrData.dataArray da,
                      parameters := params })
  ∧ (runMaskDispatch (MaskFn.callable s) (XrData.dataset vars) params
        = Except.ok { kwargName := "ds_scene", argument := XrData.dataset vars,
                      parameters := params })
  ∧ (∀ d : XrData, runMaskDispatch (MaskFn.shorthand s) d params
        = Except.error ("NotImplementedError: " ++ s)) := by
  refine ⟨rfl, rfl, ?_⟩
  intro d
  cases d <;> rfl

/-- **C6.** The metric-step input check on a single field: a boolean-typed
field is accepted unchanged; a non-boolean field whose minimum is exactly
0.0 and maximum exactly 1.0 is auto-cast and accepted; any other range
raises the validation error carrying the field name and the actual minimum
and maximum. -/
theorem metric_input_validation (da : DataArrayM) :
    (da.isBool = true → checkMetricInput da = MetricInputResult.acceptedBool)
  ∧ (da.isBool = false → listMinQ da.values = 0 → listMaxQ da.values = 1 →
      checkMetricInput da = MetricInputResult.acceptedCast)
  ∧ (da.isBool = false → (listMinQ da.values ≠ 0 ∨ listMaxQ da.values ≠ 1) →
      checkMetricInput da
        = MetricInputResult.rangeError da.name (listMinQ da.values)
            (listMaxQ da.values)) := by
  refine ⟨?_, ?_, ?_⟩
  · intro hb
    simp [checkMetricInput, hb]
  · intro hb hmin hmax
    simp [checkMetricInput, hb, hmin, hmax]
  · intro hb hrange
    simp only [checkMetricInput, hb, Bool.false_eq_true, if_false]
    rw [if_pos hrange]

/-- Witness for C6: a boolean mask is accepted; the float field `[0, 1]` is
auto-cast; the float field with values 0.0 and 0.5 raises the range error
naming the field and the range `[0 : 1/2]`. -/
theorem metric_input_validation_witness :
    checkMetricInput { name := "mask", isBool := true, values := [0, 1] }
        = MetricInputResult.acceptedBool
  ∧ checkMetricInput { name := "mask", isBool := false, values := [0, 1] }
        = MetricInputResult.acceptedCast
  ∧ checkMetricInput { name := "w", isBool := false, values := [0, 1/2] }
        = MetricInputResult.rangeError "w" 0 (1/2) := by
  refine ⟨(metric_input_validation _).1 rfl, ?_, ?_⟩
  · exact (metric_input_validation _).2.1 rfl
      (by norm_num [listMinQ, List.foldl]) (by norm_num [listMaxQ, List.foldl])
  · have h := (metric_input_validation
        { name := "w", isBool := false, values := [0, 1/2] }).2.2 rfl
        (Or.inr (by norm_num [listMaxQ, List.foldl]))
    rw [h]
    norm_num [listMinQ, listMaxQ, List.foldl]

/-- **C8, counterexample.** The claim says `tile` defaults
`window_offset=None` and that omitting `window_offset` extracts windows at
offset 0 for every stride.  In the source the default is the string
`"stride_center"`: with `window_size=4, window_stride=8` and
`window_offset` omitted, the recorded step carries `"stride_center"` (not
`None`) and the run-time offset is `2`, not `0`. -/
theorem tile_default_offset_counterexample :
    ((samplePipeline.tile 4 (Option.some 8)).steps
        = samplePipeline.steps
            ++ [Step.tile 4 (Option.some 8) (PValue.str "stride_center")])
  ∧ PValue.str "stride_center" ≠ PValue.pyNone
  ∧ computeWindowOffset 4 (Option.some 8) (PValue.str "stride_center")
        = Except.ok 2
  ∧ Except.ok 2 ≠ (Except.ok 0 : Except String Nat) := by
  refine ⟨rfl, by decide, rfl, by simp⟩

/-- **C8, amended.** `tile` has default `window_offset="stride_center"`:
omitting `window_offset` yields offset `(window_stride - window_size) // 2`
when `window_stride ≥ window_size` (hence offset 0 when `window_stride` is
also omitted, because the stride then defaults to the window size) and a
configuration error when `window_stride < window_size`.  Passing
`window_offset=None` explicitly yields offset 0 for every stride, and with
offset 0 the extracted windows start at position 0 along an axis (the same
offset is applied to both axes). -/
theorem tile_default_offset_amended (p : CloudmetricPipeline)
    (ws stride : Nat) (strideOpt : Option Nat) :
    ((p.tile ws strideOpt).steps
        = p.steps ++ [Step.tile ws strideOpt (PValue.str "stride_center")])
  ∧ (ws ≤ stride →
      computeWindowOffset ws (Option.some stride) (PValue.str "stride_center")
        = Except.ok ((stride - ws) / 2))
  ∧ (stride < ws →
      computeWindowOffset ws (Option.some stride) (PValue.str "stride_center")
        = Except.error "`stride_center` requires window_stride >= window_size")
  ∧ (computeWindowOffset ws Option.none (PValue.str "stride_center")
        = Except.ok 0)
  ∧ (computeWindowOffset ws strideOpt PValue.pyNone = Except.ok 0)
  ∧ (∀ n st, ws ≤ n → 1 ≤ ws →
      (windowStartPositions n ws st 0).head? = Option.some 0) := by
  refine ⟨rfl, ?_, ?_, ?_, ?_, ?_⟩
  · intro h
    simp [computeWindowOffset, resolveStride, h]
  · intro h
    simp [computeWindowOffset, resolveStride, Nat.not_le.mpr h]
  · simp [computeWindowOffset, resolveStride]
  · cases strideOpt <;> simp [computeWindowOffset, resolveStride]
  · intro n st hn _hws
    unfold windowStartPositions
    have hpos : 0 < n + 1 - ws := by omega
    obtain ⟨k, hk⟩ : ∃ k, n + 1 - ws = k + 1 := ⟨n - ws, by omega⟩
    rw [hk, List.range_succ_eq_map]
    simp

/-- Witness for the amended C8: with `window_size=4` and the default
offset, `window_stride=8` gives offset 2, `window_stride=3` is a
configuration error, an omitted stride gives offset 0, and an explicit
`None` offset gives 0 even for `window_stride=8`. -/
theorem tile_default_offset_amended_witness :
    computeWindowOffset 4 (Option.some 8) (PValue.str "stride_center")
        = Except.ok 2
  ∧ computeWindowOffset 4 (Option.some 3) (PValue.str "stride_center")
        = Except.error "`stride_center` requires window_stride >= window_size"
  ∧ computeWindowOffset 4 Option.none (PValue.str "stride_center")
        = Except.ok 0
  ∧ computeWindowOffset 4 (Option.some 8) PValue.pyNone = Except.ok 0
  ∧ (windowStartPositions 8 4 8 0).head? = Option.some 0 :=
  ⟨(tile_default_offset_amended samplePipeline 4 8 (Option.some 8)).2.1 (by decide),
   (tile_default_offset_amended samplePipeline 4 3 (Option.some 3)).2.2.1 (by decide),
   (tile_default_offset_amended samplePipeline 4 0 Option.none).2.2.2.1,
   (tile_default_offset_amended samplePipeline 4 0 (Option.some 8)).2.2.2.2.1,
   (tile_default_offset_amended samplePipeline 4 0 Option.none).2.2.2.2.2 8 8
     (by decide) (by decide)⟩

/-- `keyFind` on the empty group list. -/
theorem keyFind_nil {V : Type} (n : String) :
    keyFind ([] : List (String × List V)) n = Option.none := rfl

/-- Unfolding `keyFind` one group at a time. -/
theorem keyFind_cons {V : Type} (x : String × List V)
    (l : List (String × List V)) (n : String) :
    keyFind (x :: l) n = if x.1 = n then Option.some x.2 else keyFind l n := by
  unfold keyFind
  by_cases h : x.1 = n
  · rw [List.find?_cons_of_pos _ (by simpa using h), if_pos h]
    rfl
  · rw [List.find?_cons_of_neg _ (by simpa using h), if_neg h]

/-- Appending a payload to the group of `da.name` (the `then` branch of
`addToGroups`) only changes that group. -/
theorem keyFind_mapUpdate {V : Type} (acc : List (String × List V)) (da : DA V)
    (n : String) :
    keyFind (acc.map (fun g => if g.1 == da.name then (g.1, g.2 ++ [da.payload]) else g)) n
      = if da.name = n then (keyFind acc n).map (fun vs => vs ++ [da.payload])
        else keyFind acc n := by
  induction acc with
  | nil => by_cases hdn : da.name = n <;> simp [keyFind_nil, hdn]
  | cons g gs ih =>
    have hfst : (if g.1 == da.name then (g.1, g.2 ++ [da.payload]) else g).1 = g.1 := by
      by_cases h : g.1 == da.name <;> simp [h]
    rw [List.map_cons, keyFind_cons, hfst, keyFind_cons]
    by_cases hgn : g.1 = n
    · by_cases hdn : da.name = n
      · have hgd : (g.1 == da.name) = true := by simp [hgn, hdn]
        simp only [if_pos hgn, hgd, if_pos hdn]
        simp
      · have hgd : (g.1 == da.name) = false := by
          simp only [beq_eq_false_iff_ne, ne_eq]
          exact fun he => hdn (he.symm.trans hgn)
        simp only [if_pos hgn, hgd, if_neg hdn]
        simp
    · simp only [if_neg hgn]
      exact ih

/-- Appending a fresh group (the `else` branch of `addToGroups`) is only
seen by lookups that found nothing before. -/
theorem keyFind_append_single {V : Type} (acc : List (String × List V))
    (k : String) (vs : List V) (n : String) :
    keyFind (acc ++ [(k, vs)]) n
      = match keyFind acc n with
        | Option.some r => Option.some r
        | Option.none => if k = n then Option.some vs else Option.none := by
  induction acc with
  | nil =>
    rw [List.nil_append, keyFind_cons, keyFind_nil]
  | cons g gs ih =>
    rw [List.cons_append, keyFind_cons, keyFind_cons]
    by_cases hgn : g.1 = n
    · rw [if_pos hgn, if_pos hgn]
    · rw [if_neg hgn, if_neg hgn, ih]

/-- A name no group carries finds nothing. -/
theorem keyFind_not_found {V : Type} (acc : List (String × List V)) (n : String)
    (h : acc.any (fun g => g.1 == n) = false) : keyFind acc n = Option.none := by
  unfold keyFind
  rw [List.find?_eq_none.mpr]
  · rfl
  · intro g hg
    have := List.any_eq_false.mp h g hg
    simpa using this

/-- One `setdefault`-and-append step, described through lookups: the group
of `da.name` gains `da.payload` at the end (starting from `[]` if absent),
every other group is untouched. -/
theorem keyFind_addToGroups {V : Type} (acc : List (String × List V)) (da : DA V)
    (n : String) :
    keyFind (addToGroups acc da) n
      = if da.name = n then
          Option.some ((keyFind acc n).getD [] ++ [da.payload])
        else keyFind acc n := by
  unfold addToGroups
  by_cases hany : acc.any (fun g => g.1 == da.name) = true
  · rw [if_pos hany, keyFind_mapUpdate]
    by_cases hdn : da.name = n
    · rw [if_pos hdn, if_pos hdn]
      obtain ⟨g, hg, hp⟩ := List.any_eq_true.mp hany
      have hgn : g.1 = n := by simp at hp; rw [hp, hdn]
      have hsome : (acc.find? (fun g => g.1 == n)).isSome :=
        List.find?_isSome.mpr ⟨g, hg, by simp [hgn]⟩
      cases hf : acc.find? (fun g => g.1 == n) with
      | none => rw [hf] at hsome; cases hsome
      | some g2 =>
        unfold keyFind
        rw [hf]
        simp
    · rw [if_neg hdn, if_neg hdn]
  · have hany2 : acc.any (fun g => g.1 == da.name) = false := by
      cases hb : acc.any (fun g => g.1 == da.name) with
      | false => rfl
      | true => exact absurd hb hany
    rw [if_neg hany, keyFind_append_single]
    by_cases hdn : da.name = n
    · have hnone : keyFind acc n = Option.none :=
        keyFind_not_found acc n (by rw [← hdn]; exact hany2)
      rw [hnone, if_pos hdn]
      simp [hdn]
    · cases hk : keyFind acc n with
      | some r => simp [hk, hdn]
      | none => simp [hk, hdn]

/-- The grouping fold, described through lookups, for an arbitrary starting
accumulator: the group of `n` ends as whatever it started as, extended by
the payloads of the inputs named `n`, in input order. -/
theorem keyFind_foldl {V : Type} (das : List (DA V)) (acc : List (String × List V))
    (n : String) :
    keyFind (das.foldl addToGroups acc) n
      = match keyFind acc n with
        | Option.some vs => Option.some (vs ++ groupPayloads das n)
        | Option.none =>
            if das.any (fun da => da.name == n)
            then Option.some (groupPayloads das n) else Option.none := by
  induction das generalizing acc with
  | nil =>
    cases hk : keyFind acc n <;> simp [groupPayloads, hk]
  | cons da rest ih =>
    rw [List.foldl_cons, ih]
    rw [keyFind_addToGroups]
    by_cases hdn : da.name = n
    · have hb : (da.name == n) = true := by simp [hdn]
      rw [if_pos hdn]
      cases hk : keyFind acc n with
      | some vs =>
        simp only [hk, Option.getD_some, groupPayloads, List.filter_cons, hb]
        simp
      | none =>
        simp only [hk, Option.getD_none, List.nil_append, groupPayloads,
          List.filter_cons, hb, List.any_cons]
        simp
    · have hb : (da.name == n) = false := by simp [hdn]
      rw [if_neg hdn]
      cases hk : keyFind acc n with
      | some vs =>
        simp only [hk, groupPayloads, List.filter_cons, hb]
        simp
      | none =>
        simp only [hk, groupPayloads, List.filter_cons, hb, List.any_cons]
        simp

/-- One grouping step, at the level of the group keys. -/
theorem addToGroups_keys {V : Type} (acc : List (String × List V)) (da : DA V) :
    (addToGroups acc da).map Prod.fst
      = if da.name ∈ acc.map Prod.fst then acc.map Prod.fst
        else acc.map Prod.fst ++ [da.name] := by
  unfold addToGroups
  by_cases hany : acc.any (fun g => g.1 == da.name) = true
  · have hmem : da.name ∈ acc.map Prod.fst := by
      obtain ⟨g, hg, hp⟩ := List.any_eq_true.mp hany
      exact List.mem_map.mpr ⟨g, hg, by simpa using hp⟩
    rw [if_pos hany, if_pos hmem, List.map_map]
    apply List.map_congr_left
    intro g _
    by_cases h : g.1 = da.name <;> simp [h]
  · have hmem : da.name ∉ acc.map Prod.fst := by
      intro hm
      obtain ⟨g, hg, hp⟩ := List.mem_map.mp hm
      exact hany (List.any_eq_true.mpr ⟨g, hg, by simp [hp]⟩)
    rw [if_neg hany, if_neg hmem, List.map_append]
    rfl

/-- The grouping fold at the level of the group keys, for an arbitrary
starting accumulator. -/
theorem groupByName_keys_aux {V : Type} (das : List (DA V))
    (acc : List (String × List V)) :
    (das.foldl addToGroups acc).map Prod.fst
      = das.foldl (fun ns da => if da.name ∈ ns then ns else ns ++ [da.name])
          (acc.map Prod.fst) := by
  induction das generalizing acc with
  | nil => rfl
  | cons da rest ih =>
    rw [List.foldl_cons, List.foldl_cons, ih, addToGroups_keys]

/-- The group keys are the distinct input names in first-occurrence order. -/
theorem groupByName_keys {V : Type} (das : List (DA V)) :
    (groupByName das).map Prod.fst = firstOccurrenceNames das :=
  groupByName_keys_aux das []

/-- When every output carries the same name, the distinct-name list is that
single name. -/
theorem firstOccurrenceNames_all_eq {V : Type} (d : DA V) (rest : List (DA V))
    (n : String) (hd : d.name = n) (hr : ∀ da ∈ rest, da.name = n) :
    firstOccurrenceNames (d :: rest) = [n] := by
  have haux : ∀ (l : List (DA V)) (ns : List String), (∀ da ∈ l, da.name = n) →
      n ∈ ns →
      l.foldl (fun ns da => if da.name ∈ ns then ns else ns ++ [da.name]) ns = ns := by
    intro l
    induction l with
    | nil => intro ns _ _; rfl
    | cons x xs ih =>
      intro ns hall hn
      rw [List.foldl_cons]
      rw [if_pos (by rw [hall x (by simp)]; exact hn)]
      exact ih ns (fun da hda => hall da (by simp [hda])) hn
  unfold firstOccurrenceNames
  rw [List.foldl_cons]
  have hstep : (if d.name ∈ ([] : List String) then ([] : List String)
      else [] ++ [d.name]) = [n] := by
    rw [if_neg (List.not_mem_nil d.name), List.nil_append, hd]
  rw [hstep]
  exact haux rest [n] hr (by simp)

/-- **C9.** The merger groups the final-step outputs by variable name
(group keys are the distinct names in first-occurrence order) and
concatenates within each name group along the new scene axis, in input
order; when all outputs share one single name the result is that one
concatenated array, returned unwrapped; when at least two distinct names
appear, the name groups are combined and the multi-variable container is
returned. -/
theorem merge_outputs_spec {V : Type} (das : List (DA V)) (h : das ≠ []) :
    (∀ n, keyFind (groupByName das) n
        = if das.any (fun da => da.name == n)
          then Option.some (groupPayloads das n) else Option.none)
  ∧ ((groupByName das).map Prod.fst = firstOccurrenceNames das)
  ∧ (∀ n, (∀ da ∈ das, da.name = n) →
      mergeOutputs das
        = Except.ok (MergeResultM.singleVar ⟨n, das.map (fun da => da.payload)⟩))
  ∧ (2 ≤ (firstOccurrenceNames das).length →
      mergeOutputs das
        = Except.ok (MergeResultM.multiVar
            ((groupByName das).map (fun g => MergedVarM.mk g.1 g.2)))) := by
  have hkf : ∀ n, keyFind (groupByName das) n
      = if das.any (fun da => da.name == n)
        then Option.some (groupPayloads das n) else Option.none := by
    intro n
    unfold groupByName
    rw [keyFind_foldl das [] n, keyFind_nil]
  have hkeys := groupByName_keys das
  have hemp : das.isEmpty = false := by
    cases das with
    | nil => exact absurd rfl h
    | cons d rest => rfl
  refine ⟨hkf, hkeys, ?_, ?_⟩
  · intro n hall
    cases hdas : das with
    | nil => exact absurd hdas h
    | cons d rest =>
      have hfo : firstOccurrenceNames das = [n] := by
        rw [hdas]
        exact firstOccurrenceNames_all_eq d rest n (hall d (by rw [hdas]; simp))
          (fun da hda => hall da (by rw [hdas]; simp [hda]))
      rw [← hdas]
      have hkeys1 : (groupByName das).map Prod.fst = [n] := hkeys.trans hfo
      cases hgb : groupByName das with
      | nil => rw [hgb] at hkeys1; simp at hkeys1
      | cons g gs =>
        rw [hgb] at hkeys1
        simp only [List.map_cons] at hkeys1
        have hg1 : g.1 = n := (List.cons_eq_cons.mp hkeys1).1
        have hgs : gs = [] := List.map_eq_nil_iff.mp (List.cons_eq_cons.mp hkeys1).2
        have hany : das.any (fun da => da.name == n) = true := by
          rw [hdas]
          simp only [List.any_cons]
          rw [hall d (by rw [hdas]; simp)]
          simp
        have hvs : g.2 = das.map (fun da => da.payload) := by
          have h1 := hkf n
          rw [hgb, hgs, hany, if_pos rfl] at h1
          rw [keyFind_cons] at h1
          rw [if_pos hg1] at h1
          have h2 : groupPayloads das n = das.map (fun da => da.payload) := by
            unfold groupPayloads
            rw [List.filter_eq_self.mpr (fun da hda => by simp [hall da hda])]
          rw [h2] at h1
          exact Option.some.inj h1
        unfold mergeOutputs
        rw [hemp]
        simp only [Bool.false_eq_true, if_false, hgb, hgs, List.map_cons, List.map_nil]
        rw [hg1, hvs]
  · intro hlen
    have hlen2 : 2 ≤ (groupByName das).length := by
      have hcl := congrArg List.length hkeys
      rw [List.length_map] at hcl
      rw [hcl]
      exact hlen
    cases hgb : groupByName das with
    | nil => rw [hgb] at hlen2; simp at hlen2
    | cons g1 gtail =>
      cases gtail with
      | nil => rw [hgb] at hlen2; simp at hlen2
      | cons g2 grest =>
        unfold mergeOutputs
        rw [hemp]
        simp only [Bool.false_eq_true, if_false, hgb, List.map_cons]

/-- Witness for C9: three concrete outputs with two distinct names merge
into the multi-variable container whose groups are the names in
first-occurrence order, each with its payloads in input order; two outputs
sharing one name merge into the single unwrapped array. -/
theorem merge_outputs_spec_witness :
    (mergeOutputs [DA.mk "iorg" "x", DA.mk "fractal_dimension" "y", DA.mk "iorg" "z"]
      = Except.ok (MergeResultM.multiVar
          [MergedVarM.mk "iorg" ["x", "z"], MergedVarM.mk "fractal_dimension" ["y"]]))
  ∧ (mergeOutputs [DA.mk "iorg" "x", DA.mk "iorg" "z"]
      = Except.ok (MergeResultM.singleVar (MergedVarM.mk "iorg" ["x", "z"]))) := by
  constructor
  · have hm := (merge_outputs_spec
        [DA.mk "iorg" "x", DA.mk "fractal_dimension" "y", DA.mk "iorg" "z"]
        (by simp)).2.2.2 (by decide)
    rw [hm]
    rfl
  · have hs := (merge_outputs_spec [DA.mk "iorg" "x", DA.mk "iorg" "z"]
        (by simp)).2.2.1 "iorg" (by decide)
    rw [hs]
    rfl


end CloudmetricsPipeline
